import Mathlib

/-!
Shallow embedding of the video-generation pipeline of the ai-avatar-system
repository, together with theorems settling the specification claims.

Modelling conventions:
* Promise-based asynchronous code is modelled with explicit outcomes:
  an asynchronous operation that may be invoked repeatedly is a function
  from the invocation index (0-based) to an outcome.
* A JavaScript thrown value is either a classified VideoGenerationError
  (src/types/errors.ts, unnamed/part_008) or a plain Error carrying a
  message.  Fallible code returns an Except value.
* Real-time delays (setTimeout sleeps) have no observable effect in the
  claims and are not modelled beyond the loop structure around them.
* Machine numbers appearing here (lengths, attempt counters) are small
  non-negative counters in the source; they are modelled as Nat.
-/

namespace AvatarSystem

/-- Error taxonomy of src/types/errors.ts (unnamed/part_008). -/
inductive ApiErrorType where
  | OPENAI_ERROR
  | DID_ERROR
  | CREDIT_INSUFFICIENT
  | VALIDATION_ERROR
  | NETWORK_ERROR
  | UNKNOWN_ERROR
  deriving DecidableEq, Repr

/-- VideoGenerationError of unnamed/part_008: a classified error with a
message, a type tag, an optional original-error message and a retryable
flag (defaulting to false in the source constructor). -/
structure VideoGenerationError where
  message : String
  type : ApiErrorType
  originalMessage : Option String := none
  retryable : Bool := false
  deriving DecidableEq, Repr

/-- A thrown JavaScript value as observed by the code under study: either
a classified VideoGenerationError or a plain Error with a message. -/
inductive JsError where
  | vg (e : VideoGenerationError)
  | plain (message : String)
  deriving DecidableEq, Repr

/-- Decidable equality of outcomes, used to evaluate concrete runs. -/
instance instDecEqExcept {ε α : Type} [DecidableEq ε] [DecidableEq α] :
    DecidableEq (Except ε α) := fun x y =>
  match x, y with
  | .ok a, .ok b =>
    if h : a = b then .isTrue (by rw [h]) else .isFalse (fun he => by cases he; exact h rfl)
  | .error a, .error b =>
    if h : a = b then .isTrue (by rw [h]) else .isFalse (fun he => by cases he; exact h rfl)
  | .ok _, .error _ => .isFalse (fun he => by cases he)
  | .error _, .ok _ => .isFalse (fun he => by cases he)

/-- Message of a thrown value (JS: error.message). -/
def JsError.jsMessage : JsError → String
  | .vg e => e.message
  | .plain m => m

/-- ERROR_MESSAGES map of unnamed/part_008. -/
def ERROR_MESSAGES : ApiErrorType → String
  | .OPENAI_ERROR => "OpenAI APIでエラーが発生しました。しばらく時間をおいて再度お試しください。"
  | .DID_ERROR => "D-ID APIでエラーが発生しました。動画生成に失敗しました。"
  | .CREDIT_INSUFFICIENT => "クレジットが不足しています。プランをアップグレードするか、クレジットを追加してください。"
  | .VALIDATION_ERROR => "入力内容に問題があります。内容を確認して再度お試しください。"
  | .NETWORK_ERROR => "ネットワークエラーが発生しました。接続を確認して再度お試しください。"
  | .UNKNOWN_ERROR => "予期しないエラーが発生しました。しばらく時間をおいて再度お試しください。"

/-! ## Retry executor (unnamed/part_010, src/utils/retry.ts) -/

/-- RetryConfig of unnamed/part_010.  The source field retryDelay is in
milliseconds. -/
structure RetryConfig where
  maxRetries : Nat
  retryDelay : Nat
  exponentialBackoff : Bool
  deriving DecidableEq, Repr

/-- DEFAULT_RETRY_CONFIG of unnamed/part_010. -/
def DEFAULT_RETRY_CONFIG : RetryConfig :=
  { maxRetries := 3, retryDelay := 1000, exponentialBackoff := true }

/-- The short-circuit test of withRetry: the error is an instance of
VideoGenerationError and its retryable flag is false. -/
def nonRetryableClassified : JsError → Bool
  | .vg e => !e.retryable
  | .plain _ => false

/-- The delay computed before the next attempt in withRetry
(retryDelay * 2 ^ attempt when exponentialBackoff, else retryDelay). -/
def retryDelayFor (cfg : RetryConfig) (attempt : Nat) : Nat :=
  if cfg.exponentialBackoff then cfg.retryDelay * 2 ^ attempt else cfg.retryDelay

/-- Loop body of withRetry (unnamed/part_010 lines 36-60).  The source
iterates attempt = 0 .. maxRetries; here remaining = maxRetries - attempt,
so remaining = 0 is the source condition attempt === maxRetries (break and
re-raise the last error).  The second component counts invocations of fn
performed by this call. -/
def withRetryGo (fn : Nat → Except JsError α) :
    Nat → Nat → Except JsError α × Nat
  | attempt, remaining =>
    match fn attempt with
    | .ok a => (.ok a, 1)
    | .error e =>
      if nonRetryableClassified e then (.error e, 1)
      else
        match remaining with
        | 0 => (.error e, 1)
        | r + 1 =>
          let p := withRetryGo fn (attempt + 1) r
          (p.1, p.2 + 1)

/-- withRetry of unnamed/part_010: run fn with up to maxRetries retries,
returning the outcome together with the total number of invocations. -/
def withRetry (fn : Nat → Except JsError α)
    (config : RetryConfig := DEFAULT_RETRY_CONFIG) : Except JsError α × Nat :=
  withRetryGo fn 0 config.maxRetries

/-! ## Input validator (src/utils/validation.ts) -/

/-- MAX_SCRIPT_LENGTH of src/utils/validation.ts. -/
def MAX_SCRIPT_LENGTH : Nat := 5000

/-- ValidationResult of src/utils/validation.ts. -/
structure ValidationResult where
  isValid : Bool
  errors : List String
  deriving DecidableEq, Repr

/-- JavaScript String.prototype.trim as used by validateScript: remove
leading and trailing whitespace.  Modelled on the character list of the
string (dropWhile whitespace at the front, then at the back). -/
def jsTrim (s : String) : String :=
  String.mk (((s.data.dropWhile Char.isWhitespace).reverse.dropWhile Char.isWhitespace).reverse)

/-- Empty-script error message of validateScript. -/
def MSG_EMPTY : String := "台本を入力してください。"

/-- Over-length error message of validateScript; includes the actual raw
length. -/
def msgTooLong (len : Nat) : String :=
  "台本は" ++ toString MAX_SCRIPT_LENGTH ++ "文字以内で入力してください。現在：" ++ toString len ++ "文字"

/-- Under-length error message of validateScript. -/
def MSG_TOO_SHORT : String := "台本は10文字以上で入力してください。"

/-- validateScript of src/utils/validation.ts lines 21-43.  The source
guard (!script || script.trim().length === 0) is equivalent to
script.trim().length === 0, since the empty string is the only falsy
string and its trim is empty.  String lengths count characters (the
scripts of interest stay inside the basic multilingual plane, where
JavaScript UTF-16 length agrees with the character count). -/
def validateScript (script : String) : ValidationResult :=
  let errors : List String :=
    (if (jsTrim script).length == 0 then [MSG_EMPTY] else [])
    ++ (if script.length > MAX_SCRIPT_LENGTH then [msgTooLong script.length] else [])
    ++ (if (jsTrim script).length > 0 && (jsTrim script).length < 10 then [MSG_TOO_SHORT] else [])
  { isValid := errors.isEmpty, errors := errors }

/-- validateScriptOrThrow of src/utils/validation.ts lines 50-60: throws
a non-retryable VALIDATION_ERROR joining all error strings with a space
when invalid. -/
def validateScriptOrThrow (script : String) : Except JsError Unit :=
  let result := validateScript script
  if result.isValid then .ok ()
  else .error (.vg
    { message := String.intercalate (" ") result.errors
      type := .VALIDATION_ERROR
      retryable := false })

/-! ## D-ID video client (src/services/did-video.service.ts) -/

/-- Status vocabulary of the D-ID talks API (unnamed/part_005 interface
DIDStatusResponse). -/
inductive DIDStatus where
  | created
  | processing
  | done
  | error
  | rejected
  deriving DecidableEq, Repr

/-- A status response from GET talks: status, optional result_url, and
the optional error payload (kind, description). -/
structure DIDStatusResponse where
  status : DIDStatus
  result_url : Option String := none
  errKind : Option String := none
  errDescription : Option String := none
  deriving DecidableEq, Repr

/-- JavaScript truthiness of an optional string (undefined and the empty
string are falsy). -/
def jsTruthyStr : Option String → Bool
  | none => false
  | some s => !(s == "")

/-- Loop body of waitForVideoCompletion (did-video.service.ts lines
130-147).  The source iterates attempt = 0 .. maxAttempts - 1; here fuel =
maxAttempts - attempt, so fuel = 0 is loop exit (raise the timeout error).
poll gives the outcome of the attempt-indexed getVideoStatus call (a
thrown transport error propagates: the loop has no try/catch).  The
second component counts getVideoStatus calls performed. -/
def waitLoopGo (poll : Nat → Except JsError DIDStatusResponse) :
    Nat → Nat → Except JsError String × Nat
  | 0, _ => (.error (.plain ("Video generation timeout")), 0)
  | fuel + 1, attempt =>
    match poll attempt with
    | .error e => (.error e, 1)
    | .ok st =>
      if st.status == .done && jsTruthyStr st.result_url then
        (.ok (st.result_url.getD ("")), 1)
      else if st.status == .error then
        (.error (.plain ("Video generation failed")), 1)
      else
        let p := waitLoopGo poll fuel (attempt + 1)
        (p.1, p.2 + 1)

/-- waitForVideoCompletion of did-video.service.ts: poll up to maxAttempts
times at a fixed interval (the sleep between polls is unobservable here),
returning the result URL or the raised error, together with the number of
status polls made.  The source defaults are maxAttempts 30 and intervalMs
5000. -/
def waitForVideoCompletion (poll : Nat → Except JsError DIDStatusResponse)
    (maxAttempts : Nat := 30) (intervalMs : Nat := 5000) :
    Except JsError String × Nat :=
  let _ := intervalMs
  waitLoopGo poll maxAttempts 0

/-- Error message used by the part_005 polling loop (generateLipSyncVideo)
for a job-level error or rejected status. -/
def didJobErrMessage (st : DIDStatusResponse) : String :=
  if st.errKind != none || st.errDescription != none then
    (st.errKind.getD ("Unknown error")) ++ ": " ++ (st.errDescription.getD ("No description"))
  else
    "Video generation " ++ (match st.status with
      | .created => "created"
      | .processing => "processing"
      | .done => "done"
      | .error => "error"
      | .rejected => "rejected")

/-- Polling loop of generateLipSyncVideo (unnamed/part_005 lines 629-704):
hardcoded 60 attempts of 10 seconds; a done status with a usable
result_url returns it; done without a URL raises a retryable DID_ERROR;
error or rejected raises a non-retryable DID_ERROR; a transport error
during polling is swallowed and the loop continues; exhaustion raises a
retryable DID_ERROR timeout.  fuel = maxAttempts - attempts as above. -/
def didPollLoopGo (poll : Nat → Except JsError DIDStatusResponse) (maxAttempts : Nat) :
    Nat → Nat → Except JsError String
  | 0, _ =>
    .error (.vg
      { message := "Video generation timed out after " ++ toString (maxAttempts * 10) ++ " seconds"
        type := .DID_ERROR
        retryable := true })
  | fuel + 1, attempts =>
    match poll attempts with
    | .error (.vg v) => .error (.vg v)
    | .error (.plain _) => didPollLoopGo poll maxAttempts fuel (attempts + 1)
    | .ok st =>
      if st.status == .done then
        if jsTruthyStr st.result_url then
          .ok (st.result_url.getD (""))
        else
          .error (.vg
            { message := "D-ID API returned success but no video URL"
              type := .DID_ERROR
              retryable := true })
      else if st.status == .error || st.status == .rejected then
        .error (.vg
          { message := "D-ID video generation failed: " ++ didJobErrMessage st
            type := .DID_ERROR
            originalMessage := some (didJobErrMessage st)
            retryable := false })
      else
        didPollLoopGo poll maxAttempts fuel (attempts + 1)

/-- The part_005 polling loop entered with attempts = 0 and maxAttempts =
60. -/
def didPollLoop (poll : Nat → Except JsError DIDStatusResponse) : Except JsError String :=
  didPollLoopGo poll 60 60 0

/-! ## Progress model (src/types/progress.ts) -/

/-- ProgressStep of src/types/progress.ts. -/
inductive ProgressStep where
  | VALIDATING
  | GENERATING_AUDIO_STEP
  | GENERATING_VIDEO
  | COMPLETED
  | ERROR
  deriving DecidableEq, Repr

/-- Per-step configuration entry of PROGRESS_STEPS. -/
structure ProgressStepConfig where
  progress : Nat
  message : String
  deriving DecidableEq, Repr

/-- PROGRESS_STEPS of src/types/progress.ts lines 21-27. -/
def PROGRESS_STEPS : ProgressStep → ProgressStepConfig
  | .VALIDATING => { progress := 10, message := "台本を検証しています..." }
  | .GENERATING_AUDIO_STEP => { progress := 30, message := "音声を生成しています..." }
  | .GENERATING_VIDEO => { progress := 70, message := "動画を生成しています..." }
  | .COMPLETED => { progress := 100, message := "動画生成が完了しました！" }
  | .ERROR => { progress := 0, message := "エラーが発生しました" }

/-- ProgressState of src/types/progress.ts. -/
structure ProgressState where
  currentStep : ProgressStep
  progress : Nat
  message : String
  error : Option String := none
  deriving DecidableEq, Repr

/-- The snapshot built by VideoGenerationService.updateProgress
(src/services/videoGenerationService.ts lines 145-157). -/
def mkProgressState (step : ProgressStep) (err : Option String) : ProgressState :=
  let c := PROGRESS_STEPS step
  { currentStep := step, progress := c.progress, message := c.message, error := err }

/-- getErrorMessage of videoGenerationService.ts lines 201-207. -/
def getErrorMessage : JsError → String
  | .vg e => e.message
  | .plain _ => ERROR_MESSAGES .UNKNOWN_ERROR

/-! ## Test-service orchestrator
(src/services/videoGenerationService.ts, class VideoGenerationService) -/

/-- generateVideo of videoGenerationService.ts lines 41-72, with the two
remote phases abstracted as invocation-indexed operations (audioOp and
videoOp give the classified outcome of the i-th attempt of generateAudio
and generateVideoFromAudio respectively; both are run under withRetry
with the default configuration, exactly as in the source).  Returns the
outcome (videoUrl and audioUrl on success; the wall-clock duration of the
source result is not modelled) paired with the list of ProgressState
snapshots delivered to the attached onProgress callback, in order. -/
def serviceGenerateVideo (script : String)
    (audioOp videoOp : Nat → Except JsError String) :
    Except JsError (String × String) × List ProgressState :=
  let p1 := [mkProgressState .VALIDATING none]
  match validateScriptOrThrow script with
  | .error e => (.error e, p1 ++ [mkProgressState .ERROR (some (getErrorMessage e))])
  | .ok _ =>
    let p2 := p1 ++ [mkProgressState .GENERATING_AUDIO_STEP none]
    match (withRetry audioOp DEFAULT_RETRY_CONFIG).1 with
    | .error e => (.error e, p2 ++ [mkProgressState .ERROR (some (getErrorMessage e))])
    | .ok audioUrl =>
      let p3 := p2 ++ [mkProgressState .GENERATING_VIDEO none]
      match (withRetry videoOp DEFAULT_RETRY_CONFIG).1 with
      | .error e => (.error e, p3 ++ [mkProgressState .ERROR (some (getErrorMessage e))])
      | .ok videoUrl =>
        (.ok (videoUrl, audioUrl), p3 ++ [mkProgressState .COMPLETED none])

/-! ## Background route orchestrator (unnamed/part_005, generateVideoAsync) -/

/-- Primary avatar URL of DID_AVATAR_CONFIG (unnamed/part_005). -/
def PRIMARY_AVATAR : String :=
  "https://d-id-public-bucket.s3.us-west-2.amazonaws.com/alice.jpg"

/-- First fallback avatar URL of DID_AVATAR_CONFIG. -/
def FALLBACK1 : String :=
  "https://d-id-public-bucket.s3.us-west-2.amazonaws.com/amy.jpg"

/-- Second fallback avatar URL of DID_AVATAR_CONFIG. -/
def FALLBACK2 : String :=
  "https://d-id-public-bucket.s3.us-west-2.amazonaws.com/anna.jpg"

/-- Avatar configuration record of unnamed/part_005. -/
structure DIDAvatarConfig where
  primary : String
  fallbacks : List String
  deriving DecidableEq, Repr

/-- DID_AVATAR_CONFIG of unnamed/part_005: one primary and two
fallbacks. -/
def DID_AVATAR_CONFIG : DIDAvatarConfig :=
  { primary := PRIMARY_AVATAR, fallbacks := [FALLBACK1, FALLBACK2] }

/-- The columns of the videos record that generateVideoAsync writes
(insert with status pending, then the update calls of unnamed/part_005
lines 468-471, 518-525 and 546-552: status, video_url, duration,
error_message).  No avatar-related column is ever written by this
function. -/
structure VideoRecord where
  status : String
  video_url : Option String := none
  duration : Option Nat := none
  error_message : Option String := none
  deriving DecidableEq, Repr

/-- The guard of the fallback branch: the caught value is a
VideoGenerationError with retryable true. -/
def retryableVG : JsError → Bool
  | .vg v => v.retryable
  | .plain _ => false

/-- Fallback while-loop of generateVideoAsync (unnamed/part_005 lines
496-510): try each remaining fallback avatar in order; a success breaks
out with the video URL and the avatar that produced it (the source's
currentAvatar); when the failing avatar was the last one, its own error
is re-thrown (the source checks fallbackIndex >= fallbacks.length after
the failure, which is exactly: the remaining list after this avatar is
empty). -/
def tryFallbackAvatars (gen : String → Except JsError String) :
    List String → JsError → Except JsError (String × String)
  | [], lastError => .error lastError
  | avatar :: rest, _ =>
    match gen avatar with
    | .ok url => .ok (url, avatar)
    | .error fe => tryFallbackAvatars gen rest fe

/-- Try-block of generateVideoAsync around generateLipSyncVideo
(unnamed/part_005 lines 485-514): try the starting avatar; on a
retryable VideoGenerationError, and only when the fallback list is
non-empty, run the fallback loop; any other failure is re-thrown.
Returns the video URL together with the avatar that produced it. -/
def tryAvatars (gen : String → Except JsError String) (first : String)
    (fallbacks : List String) : Except JsError (String × String) :=
  match gen first with
  | .ok url => .ok (url, first)
  | .error e =>
    if retryableVG e && decide (0 < fallbacks.length) then
      tryFallbackAvatars gen fallbacks e
    else .error e

/-- generateVideoAsync of unnamed/part_005 lines 461-554, abstracted over
the outcome of the TTS step (tts) and of generateLipSyncVideo per avatar
URL (gen).  Returns the final persisted videos record: after the pending
insert and the processing update, a success persists status completed,
the video URL and the estimated duration (content length / 5); any
escaping error persists status failed and the error's own message (the
non-Error default message of the source is unreachable here since every
thrown value modelled carries a message). -/
def generateVideoAsync (gen : String → Except JsError String)
    (tts : Except JsError Unit) (scriptContent : String)
    (avatarUrl : Option String) : VideoRecord :=
  let r1 : VideoRecord := { status := "processing" }
  match tts with
  | .error e => { r1 with status := "failed", error_message := some e.jsMessage }
  | .ok _ =>
    match tryAvatars gen (avatarUrl.getD DID_AVATAR_CONFIG.primary) DID_AVATAR_CONFIG.fallbacks with
    | .ok (url, _avatarUsed) =>
      { r1 with
        status := "completed"
        video_url := some url
        duration := some (scriptContent.length / 5) }
    | .error e => { r1 with status := "failed", error_message := some e.jsMessage }

/-! ## Database-backed orchestrator
(src/services/video-generation.service.ts and the DatabaseService of the
same module group) -/

/-- ScriptData of the DatabaseService (the createdAt and updatedAt Date
fields are wall-clock values and are not modelled). -/
structure ScriptData where
  id : String
  title : String
  content : String
  status : String
  videoUrl : Option String := none
  deriving DecidableEq, Repr

/-- The in-memory scripts map of DatabaseService, as an association
list. -/
def dbGetScript (db : List (String × ScriptData)) (id : String) : Option ScriptData :=
  (db.find? (fun p => p.1 == id)).map (fun p => p.2)

/-- updateScriptStatus of DatabaseService (videoGenerationService.ts
lines 255-264): throws when the id is unknown. -/
def dbUpdateScriptStatus (db : List (String × ScriptData)) (id status : String) :
    Except JsError (List (String × ScriptData)) :=
  match dbGetScript db id with
  | none => .error (.plain ("Script not found: " ++ id))
  | some sc =>
    .ok (db.map (fun p => if p.1 == id then (p.1, { sc with status := status }) else p))

/-- updateScriptVideoUrl of DatabaseService: throws when the id is
unknown. -/
def dbUpdateScriptVideoUrl (db : List (String × ScriptData)) (id url : String) :
    Except JsError (List (String × ScriptData)) :=
  match dbGetScript db id with
  | none => .error (.plain ("Script not found: " ++ id))
  | some sc =>
    .ok (db.map (fun p => if p.1 == id then (p.1, { sc with videoUrl := some url }) else p))

/-- VideoGenerationResult of the orchestrator variant
(video-generation.service.ts). -/
structure OrchResult where
  success : Bool
  videoUrl : Option String := none
  error : Option String := none
  deriving DecidableEq, Repr

/-- generateVideo of video-generation.service.ts lines 34-83, with the
two remote steps abstracted (createVideo: script content to D-ID job id;
wait: job id to video URL).  The first component is the settled promise:
ok is a resolution (the source resolves with success true or false), and
error is a rejection escaping the catch handler; the second component is
the final state of the scripts store.  Progress callbacks have no effect
on control flow and are not modelled here. -/
def orchGenerateVideo (db0 : List (String × ScriptData)) (scriptId : String)
    (createVideo : String → Except JsError String)
    (wait : String → Except JsError String) :
    Except JsError OrchResult × List (String × ScriptData) :=
  let tryRes : Except JsError OrchResult × List (String × ScriptData) :=
    match dbGetScript db0 scriptId with
    | none => (.error (.plain ("Script not found: " ++ scriptId)), db0)
    | some script =>
      match dbUpdateScriptStatus db0 scriptId ("processing") with
      | .error e => (.error e, db0)
      | .ok db1 =>
        match createVideo script.content with
        | .error e => (.error e, db1)
        | .ok jobId =>
          match wait jobId with
          | .error e => (.error e, db1)
          | .ok url =>
            match dbUpdateScriptVideoUrl db1 scriptId url with
            | .error e => (.error e, db1)
            | .ok db2 =>
              match dbUpdateScriptStatus db2 scriptId ("completed") with
              | .error e => (.error e, db2)
              | .ok db3 => (.ok { success := true, videoUrl := some url }, db3)
  match tryRes with
  | (.ok r, db') => (.ok r, db')
  | (.error e, db') =>
    match dbUpdateScriptStatus db' scriptId ("failed") with
    | .error e2 => (.error e2, db')
    | .ok db2 => (.ok { success := false, error := some e.jsMessage }, db2)

/-! ## Helper lemmas -/

/-- Dropping a satisfying prefix block before a list. -/
theorem dropWhile_replicate_append (p : Char → Bool) (c : Char) (hc : p c = true)
    (l : List Char) : ∀ n, List.dropWhile p (List.replicate n c ++ l) = List.dropWhile p l := by
  intro n
  induction n with
  | zero => simp
  | succ n ih => simp [List.replicate_succ, List.dropWhile_cons, hc, ih]

/-- Length of a packed string is the length of its character list. -/
theorem length_mk_string (l : List Char) : (String.mk l).length = l.length := rfl

/-- The run of withRetry when every invocation fails with a retryable
classified error: all attempts are consumed and the final outcome is the
last invocation's error. -/
theorem withRetryGo_allRetryable (fn : Nat → Except JsError α)
    (h : ∀ i, ∃ v : VideoGenerationError, v.retryable = true ∧ fn i = .error (.vg v)) :
    ∀ r a, withRetryGo fn a r = (fn (a + r), r + 1) := by
  intro r
  induction r with
  | zero =>
    intro a
    obtain ⟨v, hv, hfa⟩ := h a
    simp [withRetryGo, hfa, nonRetryableClassified, hv]
  | succ r ih =>
    intro a
    obtain ⟨v, hv, hfa⟩ := h a
    have harith : a + 1 + r = a + (r + 1) := by omega
    simp [withRetryGo, hfa, nonRetryableClassified, hv, ih (a + 1), harith]

/-- A script longer than MAX_SCRIPT_LENGTH is always rejected. -/
theorem validateScript_isValid_false_of_long (s : String)
    (h : s.length > MAX_SCRIPT_LENGTH) : (validateScript s).isValid = false := by
  have hmem : msgTooLong s.length ∈ (validateScript s).errors := by
    simp only [validateScript, if_pos h]
    exact List.mem_append_left _ (List.mem_append_right _ (List.mem_singleton.mpr rfl))
  simp only [validateScript] at hmem ⊢
  rcases hne : ((if ((jsTrim s).length == 0) = true then [MSG_EMPTY] else []) ++
      (if s.length > MAX_SCRIPT_LENGTH then [msgTooLong s.length] else []) ++
      (if ((jsTrim s).length > 0 && (jsTrim s).length < 10) = true then [MSG_TOO_SHORT] else [])) with
    _ | ⟨x, xs⟩
  · rw [hne] at hmem; simp at hmem
  · simp [List.isEmpty]

/-- If every poll yields a response that is neither a usable success
(done with a truthy result_url) nor a job error, the waitForVideoCompletion
loop consumes all its fuel and raises the timeout error. -/
theorem waitLoopGo_nonterminal (poll : Nat → Except JsError DIDStatusResponse)
    (h : ∀ i, ∃ r, poll i = .ok r ∧
      (r.status == DIDStatus.done && jsTruthyStr r.result_url) = false ∧
      (r.status == DIDStatus.error) = false) :
    ∀ fuel a, waitLoopGo poll fuel a =
      (.error (.plain ("Video generation timeout")), fuel) := by
  intro fuel
  induction fuel with
  | zero => intro a; rfl
  | succ fuel ih =>
    intro a
    obtain ⟨r, hra, hnd, hne⟩ := h a
    simp [waitLoopGo, hra, hnd, hne, ih (a + 1)]

/-! ## Claim C3 -/

/-- Always-rejected status poll used in the C3 counterexample. -/
def c3PollRejected : Nat → Except JsError DIDStatusResponse := fun _ =>
  .ok { status := .rejected }

/-- C3 counterexample: calling waitForVideoCompletion with its defaults on
a job whose status is always rejected.  The claim requires default
maxAttempts 60 and an immediately raised non-retryable DID_ERROR on
rejected; instead the run makes exactly 30 status polls (the actual
default), never treats rejected as terminal, and ends with an
unclassified plain timeout error. -/
theorem waitForVideoCompletion_rejected_cex :
    waitForVideoCompletion c3PollRejected =
      (.error (.plain ("Video generation timeout")), 30) := by
  exact waitLoopGo_nonterminal c3PollRejected
    (fun _ => ⟨{ status := .rejected }, rfl, rfl, rfl⟩) 30 0

/-- C3 as amended: waitForVideoCompletion defaults to maxAttempts 30 and
intervalMs 5000; it returns the result URL on a done status carrying a
non-empty result_url; it raises the unclassified error message
of a failed job on an error status; a rejected status is polled again
like any pending status, exhaustion raising the unclassified timeout
error after exactly maxAttempts (default 30) polls.  The 60-attempt,
10-second variant with classified errors lives in the inline polling loop
of generateLipSyncVideo: there error or rejected raises a non-retryable
DID_ERROR, and exhaustion raises a retryable DID_ERROR timeout. -/
theorem waitForVideoCompletion_polling_behavior
    (poll : Nat → Except JsError DIDStatusResponse)
    (st : DIDStatusResponse) (u : String) (a : Nat) :
    (waitForVideoCompletion poll = waitForVideoCompletion poll 30 5000) ∧
    (poll 0 = .ok st → st.status = .done → st.result_url = some u → (u == "") = false →
      waitForVideoCompletion poll = (.ok u, 1)) ∧
    (poll 0 = .ok st → st.status = .error →
      waitForVideoCompletion poll = (.error (.plain ("Video generation failed")), 1)) ∧
    ((∀ i, ∃ r, poll i = .ok r ∧ r.status = .rejected) →
      waitForVideoCompletion poll = (.error (.plain ("Video generation timeout")), 30)) ∧
    (poll 0 = .ok st → st.status = .rejected →
      didPollLoop poll = .error (.vg
        { message := "D-ID video generation failed: " ++ didJobErrMessage st
          type := .DID_ERROR
          originalMessage := some (didJobErrMessage st)
          retryable := false })) ∧
    (didPollLoopGo poll 60 0 a = .error (.vg
      { message := "Video generation timed out after 600 seconds"
        type := .DID_ERROR
        retryable := true })) := by
  refine ⟨rfl, ?_, ?_, ?_, ?_, rfl⟩
  · intro hp hs hu hne
    simp [waitForVideoCompletion, waitLoopGo, hp, hs, hu, jsTruthyStr, hne]
  · intro hp hs
    simp [waitForVideoCompletion, waitLoopGo, hp, hs, jsTruthyStr]
  · intro h
    refine waitLoopGo_nonterminal poll ?_ 30 0
    intro i
    obtain ⟨r, hri, hrs⟩ := h i
    exact ⟨r, hri, by simp [hrs], by simp [hrs]⟩
  · intro hp hs
    simp [didPollLoop, didPollLoopGo, hp, hs]

/-- C3 witness: the amended theorem applied to concrete polls (a
first-poll success, a first-poll job error, an always-rejected job). -/
theorem waitForVideoCompletion_polling_behavior_witness :
    waitForVideoCompletion (fun _ => .ok { status := .done, result_url := some ("https://v.mp4") }) =
        (.ok ("https://v.mp4"), 1) ∧
      waitForVideoCompletion (fun _ => .ok { status := .error }) =
        (.error (.plain ("Video generation failed")), 1) ∧
      waitForVideoCompletion c3PollRejected =
        (.error (.plain ("Video generation timeout")), 30) ∧
      didPollLoop c3PollRejected = .error (.vg
        { message := "D-ID video generation failed: Video generation rejected"
          type := .DID_ERROR
          originalMessage := some ("Video generation rejected")
          retryable := false }) :=
  ⟨((waitForVideoCompletion_polling_behavior
        (fun _ => .ok { status := .done, result_url := some ("https://v.mp4") })
        { status := .done, result_url := some ("https://v.mp4") } ("https://v.mp4") 0).2.1)
      rfl rfl rfl rfl,
    ((waitForVideoCompletion_polling_behavior (fun _ => .ok { status := .error })
        { status := .error } ("") 0).2.2.1) rfl rfl,
    ((waitForVideoCompletion_polling_behavior c3PollRejected { status := .rejected } ("") 0).2.2.2.1)
      (fun _ => ⟨{ status := .rejected }, rfl, rfl⟩),
    ((waitForVideoCompletion_polling_behavior c3PollRejected { status := .rejected } ("") 0).2.2.2.2.1)
      rfl rfl⟩

/-! ## Claim C9 -/

/-- C9: a done status without a result_url is treated by
waitForVideoCompletion as still in progress; when every poll yields such a
response, the loop raises the timeout error after exactly maxAttempts
polls. -/
theorem waitForVideoCompletion_done_without_url_times_out
    (poll : Nat → Except JsError DIDStatusResponse) (maxAttempts intervalMs : Nat)
    (h : ∀ i, ∃ r, poll i = .ok r ∧ r.status = .done ∧ r.result_url = none) :
    waitForVideoCompletion poll maxAttempts intervalMs =
      (.error (.plain ("Video generation timeout")), maxAttempts) := by
  refine waitLoopGo_nonterminal poll ?_ maxAttempts 0
  intro i
  obtain ⟨r, hri, hrs, hru⟩ := h i
  exact ⟨r, hri, by simp [hrs, hru, jsTruthyStr], by simp [hrs]⟩

/-- C9 witness: the theorem applied to a poll that always answers done
without a result_url, with 3 attempts. -/
theorem waitForVideoCompletion_done_without_url_times_out_witness :
    (∀ i : Nat, ∃ r, (fun (_ : Nat) => Except.ok (ε := JsError) (DIDStatusResponse.mk .done none none none)) i = .ok r ∧
        r.status = .done ∧ r.result_url = none) ∧
      waitForVideoCompletion (fun _ => .ok (DIDStatusResponse.mk .done none none none)) 3 1 =
        (.error (.plain ("Video generation timeout")), 3) :=
  ⟨fun _ => ⟨DIDStatusResponse.mk .done none none none, rfl, rfl, rfl⟩,
    waitForVideoCompletion_done_without_url_times_out
      (fun _ => .ok (DIDStatusResponse.mk .done none none none)) 3 1
      (fun _ => ⟨DIDStatusResponse.mk .done none none none, rfl, rfl, rfl⟩)⟩

/-! ## Claim C4 -/

/-- Concrete always-failing retryable operation used as the C4 witness
input. -/
def c4fn : Nat → Except JsError Unit := fun _ =>
  .error (.vg { message := "boom", type := .NETWORK_ERROR, retryable := true })

/-- C4: if every invocation of the operation rejects with a retryable
classified error, withRetry with maxRetries 3 invokes the operation
exactly 4 times and rejects with the error of the 4th (index 3)
invocation. -/
theorem withRetry_allRetryable_four_invocations (fn : Nat → Except JsError α)
    (h : ∀ i, ∃ v : VideoGenerationError, v.retryable = true ∧ fn i = .error (.vg v)) :
    withRetry fn { maxRetries := 3, retryDelay := 1000, exponentialBackoff := true } =
      (fn 3, 4) := by
  have := withRetryGo_allRetryable fn h 3 0
  simpa [withRetry] using this

/-- C4 witness: the theorem applied to a concrete always-failing
retryable operation. -/
theorem withRetry_allRetryable_four_invocations_witness :
    (∀ i, ∃ v : VideoGenerationError, v.retryable = true ∧ c4fn i = .error (.vg v)) ∧
      withRetry c4fn { maxRetries := 3, retryDelay := 1000, exponentialBackoff := true } =
        (c4fn 3, 4) :=
  ⟨fun _ => ⟨{ message := "boom", type := .NETWORK_ERROR, retryable := true }, rfl, rfl⟩,
    withRetry_allRetryable_four_invocations c4fn
      (fun _ => ⟨{ message := "boom", type := .NETWORK_ERROR, retryable := true }, rfl, rfl⟩)⟩

/-! ## Claim C5 -/

/-- Concrete non-retryable failing operation used as the C5 witness
input. -/
def c5fn : Nat → Except JsError Unit := fun _ =>
  .error (.vg { message := "no credit", type := .CREDIT_INSUFFICIENT, retryable := false })

/-- C5: if the first invocation rejects with a classified error whose
retryable flag is false, withRetry invokes the operation exactly once and
re-raises that error, for every configuration. -/
theorem withRetry_nonretryable_single_invocation (fn : Nat → Except JsError α)
    (v : VideoGenerationError) (hv : v.retryable = false)
    (h0 : fn 0 = .error (.vg v)) (cfg : RetryConfig) :
    withRetry fn cfg = (fn 0, 1) := by
  cases hrem : cfg.maxRetries with
  | zero => simp [withRetry, hrem, withRetryGo, h0, nonRetryableClassified, hv]
  | succ r => simp [withRetry, hrem, withRetryGo, h0, nonRetryableClassified, hv]

/-- C5 witness: the theorem applied to a concrete non-retryable failing
operation at the default configuration. -/
theorem withRetry_nonretryable_single_invocation_witness :
    c5fn 0 = .error (.vg { message := "no credit", type := .CREDIT_INSUFFICIENT, retryable := false }) ∧
      withRetry c5fn DEFAULT_RETRY_CONFIG = (c5fn 0, 1) :=
  ⟨rfl, withRetry_nonretryable_single_invocation c5fn
    { message := "no credit", type := .CREDIT_INSUFFICIENT, retryable := false }
    rfl rfl DEFAULT_RETRY_CONFIG⟩

/-! ## Claim C6 -/

/-- A script of 10 letters followed by 4991 spaces: its trimmed length is
10 but its raw length is 5001. -/
def c6LongScript : String :=
  String.mk (List.replicate 10 (Char.ofNat 97) ++ List.replicate 4991 (Char.ofNat 32))

/-- The trim of the C6 counterexample script keeps exactly the 10
letters. -/
theorem jsTrim_c6LongScript :
    jsTrim c6LongScript = String.mk (List.replicate 10 (Char.ofNat 97)) := by
  have hA : Char.isWhitespace (Char.ofNat 97) = false := by decide
  have hSp : Char.isWhitespace (Char.ofNat 32) = true := by decide
  have hten : List.replicate 10 (Char.ofNat 97) = Char.ofNat 97 :: List.replicate 9 (Char.ofNat 97) := rfl
  have dcons : ∀ l : List Char,
      List.dropWhile Char.isWhitespace (Char.ofNat 97 :: l) = Char.ofNat 97 :: l := by
    intro l
    rw [List.dropWhile_cons]
    simp only [hA, Bool.false_eq_true, if_false]
  have d1 : List.dropWhile Char.isWhitespace
      (List.replicate 10 (Char.ofNat 97) ++ List.replicate 4991 (Char.ofNat 32)) =
      List.replicate 10 (Char.ofNat 97) ++ List.replicate 4991 (Char.ofNat 32) := by
    rw [hten, List.cons_append, dcons]
  have d3 : List.dropWhile Char.isWhitespace
      (List.replicate 4991 (Char.ofNat 32) ++ List.replicate 10 (Char.ofNat 97)) =
      List.replicate 10 (Char.ofNat 97) := by
    rw [dropWhile_replicate_append Char.isWhitespace (Char.ofNat 32) hSp _ 4991]
    rw [hten, dcons]
  unfold jsTrim c6LongScript
  rw [show (String.mk (List.replicate 10 (Char.ofNat 97) ++ List.replicate 4991 (Char.ofNat 32))).data =
      List.replicate 10 (Char.ofNat 97) ++ List.replicate 4991 (Char.ofNat 32) from rfl]
  rw [d1, List.reverse_append, List.reverse_replicate, List.reverse_replicate, d3, List.reverse_replicate]

/-- Raw length of the C6 counterexample script. -/
theorem c6LongScript_length : c6LongScript.length = 5001 := by
  unfold c6LongScript
  rw [length_mk_string]
  simp only [List.length_append, List.length_replicate]

/-- C6 counterexample: a script whose trimmed length is 10 (inside
[10, 5000]) but which validateScript rejects, because its raw length is
5001 and the over-length rule fires on the raw length. -/
theorem validateScript_trimmed_range_insufficient :
    10 ≤ (jsTrim c6LongScript).length ∧ (jsTrim c6LongScript).length ≤ 5000 ∧
      (validateScript c6LongScript).isValid = false := by
  refine ⟨?_, ?_, ?_⟩
  · rw [jsTrim_c6LongScript, length_mk_string]; simp
  · rw [jsTrim_c6LongScript, length_mk_string]; simp
  · exact validateScript_isValid_false_of_long c6LongScript (by rw [c6LongScript_length]; norm_num [MAX_SCRIPT_LENGTH])

/-- C6 as amended: if the trimmed length is in [10, 5000] and in addition
the raw length does not exceed MAX_SCRIPT_LENGTH, validateScript accepts
with an empty error list. -/
theorem validateScript_valid_of_trimmed_and_raw (s : String)
    (h1 : 10 ≤ (jsTrim s).length) (h2 : (jsTrim s).length ≤ 5000)
    (h3 : s.length ≤ MAX_SCRIPT_LENGTH) :
    (validateScript s).isValid = true ∧ (validateScript s).errors = [] := by
  have c1 : ((jsTrim s).length == 0) = false := by simp; omega
  have c2 : ¬ s.length > MAX_SCRIPT_LENGTH := by omega
  have c3 : ((jsTrim s).length > 0 && (jsTrim s).length < 10) = false := by
    simp only [Bool.and_eq_false_iff]
    right
    simp; omega
  constructor
  · simp [validateScript, c1, c2, c3]
  · simp [validateScript, c1, c2, c3]

/-- C6 witness: the amended theorem applied to a concrete 10-character
script. -/
theorem validateScript_valid_of_trimmed_and_raw_witness :
    10 ≤ (jsTrim ("0123456789")).length ∧ (jsTrim ("0123456789")).length ≤ 5000 ∧
      ("0123456789" : String).length ≤ MAX_SCRIPT_LENGTH ∧
      (validateScript ("0123456789")).isValid = true ∧
      (validateScript ("0123456789")).errors = [] := by
  refine ⟨by decide, by decide, by decide, ?_⟩
  exact validateScript_valid_of_trimmed_and_raw ("0123456789") (by decide) (by decide) (by decide)

/-! ## Claim C7 -/

/-- C7 counterexample: on the empty script the trimmed length is 0 (below
10), yet the error list is exactly the empty-content message and does not
contain the minimum-length message, because the under-length rule of the
source requires a positive trimmed length. -/
theorem validateScript_empty_lacks_min_length_error :
    (jsTrim ("")).length < 10 ∧
      MSG_TOO_SHORT ∉ (validateScript ("")).errors ∧
      (validateScript ("")).errors = [MSG_EMPTY] := by
  refine ⟨by decide, ?_, by decide⟩
  decide

/-- C7 as amended: for every script whose trimmed length is positive and
below 10, the error list contains the minimum-length message and
validation fails; for trimmed length 0 the empty-content message is
reported instead (see the counterexample). -/
theorem validateScript_min_length_error_of_short (s : String)
    (h0 : 0 < (jsTrim s).length) (h1 : (jsTrim s).length < 10) :
    MSG_TOO_SHORT ∈ (validateScript s).errors ∧ (validateScript s).isValid = false := by
  have c3 : ((jsTrim s).length > 0 && (jsTrim s).length < 10) = true := by
    simp only [Bool.and_eq_true]
    constructor <;> simp <;> omega
  have hmem : MSG_TOO_SHORT ∈ (validateScript s).errors := by
    simp only [validateScript, c3, if_true]
    exact List.mem_append_right _ (List.mem_singleton.mpr rfl)
  refine ⟨hmem, ?_⟩
  simp only [validateScript] at hmem ⊢
  rcases hne : ((if ((jsTrim s).length == 0) = true then [MSG_EMPTY] else []) ++
      (if s.length > MAX_SCRIPT_LENGTH then [msgTooLong s.length] else []) ++
      (if ((jsTrim s).length > 0 && (jsTrim s).length < 10) = true then [MSG_TOO_SHORT] else [])) with
    _ | ⟨x, xs⟩
  · rw [hne] at hmem; simp at hmem
  · simp [List.isEmpty]

/-- C7 witness: the amended theorem applied to a concrete 5-character
script. -/
theorem validateScript_min_length_error_of_short_witness :
    0 < (jsTrim ("short")).length ∧ (jsTrim ("short")).length < 10 ∧
      MSG_TOO_SHORT ∈ (validateScript ("short")).errors ∧
      (validateScript ("short")).isValid = false := by
  refine ⟨by decide, by decide, ?_⟩
  exact validateScript_min_length_error_of_short ("short") (by decide) (by decide)

/-! ## Claim C8 -/

/-- C8: on every successful generation run (validation passes and both
retried phases eventually succeed), the snapshots delivered to the
attached progress callback are exactly VALIDATING at 10, GENERATING_AUDIO_STEP
at 30, GENERATING_VIDEO at 70 and COMPLETED at 100, in this order, with
nothing repeated, omitted or out of order; internal retries emit no
snapshots. -/
theorem serviceGenerateVideo_progress_sequence (script : String)
    (audioOp videoOp : Nat → Except JsError String) (audioUrl videoUrl : String)
    (hv : (validateScript script).isValid = true)
    (ha : (withRetry audioOp DEFAULT_RETRY_CONFIG).1 = .ok audioUrl)
    (hw : (withRetry videoOp DEFAULT_RETRY_CONFIG).1 = .ok videoUrl) :
    (serviceGenerateVideo script audioOp videoOp).2 =
      [⟨.VALIDATING, 10, ("台本を検証しています..."), none⟩,
       ⟨.GENERATING_AUDIO_STEP, 30, ("音声を生成しています..."), none⟩,
       ⟨.GENERATING_VIDEO, 70, ("動画を生成しています..."), none⟩,
       ⟨.COMPLETED, 100, ("動画生成が完了しました！"), none⟩] := by
  simp [serviceGenerateVideo, validateScriptOrThrow, hv, ha, hw, mkProgressState, PROGRESS_STEPS]

/-- C8 witness: the theorem applied to a concrete valid script and
always-succeeding phases. -/
theorem serviceGenerateVideo_progress_sequence_witness :
    (validateScript ("0123456789")).isValid = true ∧
      (serviceGenerateVideo ("0123456789")
          (fun _ => .ok ("https://a.mp3")) (fun _ => .ok ("https://v.mp4"))).2 =
        [⟨.VALIDATING, 10, ("台本を検証しています..."), none⟩,
         ⟨.GENERATING_AUDIO_STEP, 30, ("音声を生成しています..."), none⟩,
         ⟨.GENERATING_VIDEO, 70, ("動画を生成しています..."), none⟩,
         ⟨.COMPLETED, 100, ("動画生成が完了しました！"), none⟩] :=
  ⟨by decide,
    serviceGenerateVideo_progress_sequence ("0123456789")
      (fun _ => .ok ("https://a.mp3")) (fun _ => .ok ("https://v.mp4"))
      ("https://a.mp3") ("https://v.mp4") (by decide) rfl rfl⟩

/-! ## Claim C1 -/

/-- Lip-sync outcome where the primary avatar succeeds at once. -/
def c1GenPrimaryOk : String → Except JsError String := fun a =>
  if a == PRIMARY_AVATAR then .ok ("https://v.example/ok.mp4")
  else .error (.vg { message := "render failed", type := .DID_ERROR, retryable := true })

/-- Lip-sync outcome where the primary and the first fallback fail with a
retryable error and the second fallback succeeds. -/
def c1GenSecondFallbackOk : String → Except JsError String := fun a =>
  if a == FALLBACK2 then .ok ("https://v.example/ok.mp4")
  else .error (.vg { message := "render failed", type := .DID_ERROR, retryable := true })

/-- C1 counterexample: in the claimed scenario (primary fails retryably,
second fallback succeeds) the avatar that produced the video is the
second fallback (first conjunct), but the persisted record is exactly the
same as in a run where the primary succeeded at once (third conjunct):
the completed update of the source writes only status, video_url and
duration, so no persisted avatarUsed field exists that could equal the
second fallback URL. -/
theorem generateVideoAsync_no_avatar_persisted_cex :
    tryAvatars c1GenSecondFallbackOk PRIMARY_AVATAR DID_AVATAR_CONFIG.fallbacks =
        .ok (("https://v.example/ok.mp4"), FALLBACK2) ∧
      tryAvatars c1GenPrimaryOk PRIMARY_AVATAR DID_AVATAR_CONFIG.fallbacks =
        .ok (("https://v.example/ok.mp4"), PRIMARY_AVATAR) ∧
      generateVideoAsync c1GenSecondFallbackOk (.ok ()) ("0123456789") none =
        generateVideoAsync c1GenPrimaryOk (.ok ()) ("0123456789") none ∧
      generateVideoAsync c1GenSecondFallbackOk (.ok ()) ("0123456789") none =
        { status := "completed", video_url := some ("https://v.example/ok.mp4"),
          duration := some 2, error_message := none } := by
  decide

/-- C1 as amended: with a retryable primary failure and two fallbacks of
which the second succeeds, the run persists status completed with the
video URL produced by the second fallback; the avatar that ultimately
succeeded (the source's in-memory currentAvatar, which is only logged)
equals the second fallback URL, but no avatarUsed value is persisted. -/
theorem generateVideoAsync_second_fallback_success
    (gen : String → Except JsError String) (v : VideoGenerationError) (e1 : JsError)
    (url s : String)
    (hp : gen PRIMARY_AVATAR = .error (.vg v)) (hv : v.retryable = true)
    (h1 : gen FALLBACK1 = .error e1) (h2 : gen FALLBACK2 = .ok url) :
    generateVideoAsync gen (.ok ()) s none =
        { status := "completed", video_url := some url,
          duration := some (s.length / 5), error_message := none } ∧
      tryAvatars gen PRIMARY_AVATAR DID_AVATAR_CONFIG.fallbacks = .ok (url, FALLBACK2) := by
  have htry : tryAvatars gen PRIMARY_AVATAR DID_AVATAR_CONFIG.fallbacks = .ok (url, FALLBACK2) := by
    simp [tryAvatars, DID_AVATAR_CONFIG, hp, retryableVG, hv, tryFallbackAvatars, h1, h2]
  have hpr : (none : Option String).getD DID_AVATAR_CONFIG.primary = PRIMARY_AVATAR := rfl
  refine ⟨?_, htry⟩
  simp [generateVideoAsync, hpr, htry]

/-- C1 witness: the amended theorem applied to the concrete
second-fallback scenario. -/
theorem generateVideoAsync_second_fallback_success_witness :
    generateVideoAsync c1GenSecondFallbackOk (.ok ()) ("0123456789") none =
        { status := "completed", video_url := some ("https://v.example/ok.mp4"),
          duration := some (("0123456789" : String).length / 5), error_message := none } ∧
      tryAvatars c1GenSecondFallbackOk PRIMARY_AVATAR DID_AVATAR_CONFIG.fallbacks =
        .ok (("https://v.example/ok.mp4"), FALLBACK2) :=
  generateVideoAsync_second_fallback_success c1GenSecondFallbackOk
    { message := "render failed", type := .DID_ERROR, retryable := true }
    (.vg { message := "render failed", type := .DID_ERROR, retryable := true })
    ("https://v.example/ok.mp4") ("0123456789") (by decide) rfl (by decide) (by decide)

/-! ## Claim C2 -/

/-- Lip-sync outcome where the primary and both fallbacks fail, each with
its own error message. -/
def c2GenAllFail : String → Except JsError String := fun a =>
  if a == FALLBACK2 then .error (.vg { message := "anna boom", type := .DID_ERROR, retryable := true })
  else if a == FALLBACK1 then .error (.vg { message := "amy boom", type := .DID_ERROR, retryable := true })
  else .error (.vg { message := "primary boom", type := .DID_ERROR, retryable := true })

/-- C2 counterexample: when the primary and both fallbacks fail, the
persisted record carries status failed and no video URL, but its error
message is the last fallback's own message, not a message aggregating the
cause as all avatars failed. -/
theorem generateVideoAsync_all_fail_cex :
    generateVideoAsync c2GenAllFail (.ok ()) ("0123456789") none =
        { status := "failed", video_url := none, duration := none,
          error_message := some ("anna boom") } ∧
      (generateVideoAsync c2GenAllFail (.ok ()) ("0123456789") none).error_message ≠
        some ("all avatars failed") := by
  decide

/-- C2 as amended: when the primary fails retryably and every fallback
fails, the run persists status failed with no videoUrl, and the persisted
error message is the message of the last fallback's own error (no
aggregate indicating exhaustion is produced by this code path). -/
theorem generateVideoAsync_all_avatars_fail
    (gen : String → Except JsError String) (v : VideoGenerationError)
    (e1 e2 : JsError) (s : String)
    (hp : gen PRIMARY_AVATAR = .error (.vg v)) (hv : v.retryable = true)
    (h1 : gen FALLBACK1 = .error e1) (h2 : gen FALLBACK2 = .error e2) :
    generateVideoAsync gen (.ok ()) s none =
      { status := "failed", video_url := none, duration := none,
        error_message := some e2.jsMessage } := by
  have htry : tryAvatars gen PRIMARY_AVATAR DID_AVATAR_CONFIG.fallbacks = .error e2 := by
    simp [tryAvatars, DID_AVATAR_CONFIG, hp, retryableVG, hv, tryFallbackAvatars, h1, h2]
  have hpr : (none : Option String).getD DID_AVATAR_CONFIG.primary = PRIMARY_AVATAR := rfl
  simp [generateVideoAsync, hpr, htry]

/-- C2 witness: the amended theorem applied to the concrete all-fail
scenario. -/
theorem generateVideoAsync_all_avatars_fail_witness :
    generateVideoAsync c2GenAllFail (.ok ()) ("0123456789") none =
      { status := "failed", video_url := none, duration := none,
        error_message := some (JsError.jsMessage (.vg { message := "anna boom", type := .DID_ERROR, retryable := true })) } :=
  generateVideoAsync_all_avatars_fail c2GenAllFail
    { message := "primary boom", type := .DID_ERROR, retryable := true }
    (.vg { message := "amy boom", type := .DID_ERROR, retryable := true })
    (.vg { message := "anna boom", type := .DID_ERROR, retryable := true })
    ("0123456789") (by decide) rfl (by decide) (by decide)

/-! ## Claim C10 -/

/-- C10: for a scriptId absent from the store, the orchestrator variant
rejects instead of resolving with a success-false result: the catch
handler unconditionally calls updateScriptStatus failed, which itself
throws for the unknown id, so the rejection escapes the handler. -/
theorem orchGenerateVideo_unknown_script_rejects
    (db : List (String × ScriptData)) (scriptId : String)
    (createVideo wait : String → Except JsError String)
    (h : dbGetScript db scriptId = none) :
    (orchGenerateVideo db scriptId createVideo wait).1 =
      .error (.plain ("Script not found: " ++ scriptId)) := by
  simp [orchGenerateVideo, dbUpdateScriptStatus, h]

/-- C10 witness: the theorem applied to the empty store and a concrete
unknown id. -/
theorem orchGenerateVideo_unknown_script_rejects_witness :
    dbGetScript ([] : List (String × ScriptData)) ("missing") = none ∧
      (orchGenerateVideo ([] : List (String × ScriptData)) ("missing")
          (fun _ => .ok ("job1")) (fun _ => .ok ("https://v.mp4"))).1 =
        .error (.plain ("Script not found: " ++ "missing")) :=
  ⟨rfl, orchGenerateVideo_unknown_script_rejects ([] : List (String × ScriptData)) ("missing")
    (fun _ => .ok ("job1")) (fun _ => .ok ("https://v.mp4")) rfl⟩

end AvatarSystem
